import Mathlib

/-!
Verification development for the THR10 settings codec and synchronization
controller (`src/sysex_tones/THR10/state.py` and
`src/sysex_tones/THR10/controller.py`).

The Python dataclasses become Lean structures whose leaf fields are
`Option Int`, `Option String` or `Option Bool`, exactly following the type
annotations of the source.  The generic, reflection-based diff/merge of the
source (`_diff_values`, `_merge_dataclasses`) becomes an explicit recursion
over the closed set of record types; the source's `dict` branches are never
exercised because no field of the state holds a `dict`.  The parameter block
(`data = [0] * THR_SYSEX_SIZE` with index assignment) is embedded as a total
function `Nat → Int` updated pointwise, so "byte at offset i" is plain
application.
-/

/-- A dynamically-typed Python leaf value, as stored by the source's
dataclass fields and reported in diff/conflict dictionaries. -/
inductive Value
  | int : Int → Value
  | str : String → Value
  | bool : Bool → Value
deriving DecidableEq, Repr

/-- One entry of the dictionary returned by `diff_state`
(`{'live': ..., 'staged': ...}` in `_diff_values`). -/
structure DiffEntry where
  live : Option Value
  staged : Option Value
deriving DecidableEq, Repr

/-- One entry of the controller's `conflicts` dictionary
(`{'live': ..., 'staged': ..., 'device': ...}` in `_detect_conflicts`). -/
structure ConflictEntry where
  live : Option Value
  staged : Option Value
  device : Option Value
deriving DecidableEq, Repr

/-- `AmpState` dataclass (state.py lines 82-89). -/
structure AmpState where
  model : Option String := none
  gain : Option Int := none
  master : Option Int := none
  bass : Option Int := none
  middle : Option Int := none
  treble : Option Int := none
deriving DecidableEq, Repr

/-- `CabState` dataclass (state.py lines 92-94). -/
structure CabState where
  model : Option String := none
deriving DecidableEq, Repr

/-- `CompressorState` dataclass (state.py lines 97-107).
The Python field `ratio` is spelled `ratioName` here; every string literal
naming the field (as used by path resolution) stays `"ratio"`. -/
structure CompressorState where
  onFlag : Option Bool := none
  kind : Option String := none
  sustain : Option Int := none
  output : Option Int := none
  threshold : Option Int := none
  attack : Option Int := none
  release : Option Int := none
  ratioName : Option String := none
  knee : Option String := none
deriving DecidableEq, Repr

/-- `ModulationState` dataclass (state.py lines 110-120). -/
structure ModulationState where
  onFlag : Option Bool := none
  kind : Option String := none
  speed : Option Int := none
  depth : Option Int := none
  mix : Option Int := none
  manual : Option Int := none
  feedback : Option Int := none
  spread : Option Int := none
  freq : Option Int := none
deriving DecidableEq, Repr

/-- `DelayState` dataclass (state.py lines 123-130). -/
structure DelayState where
  onFlag : Option Bool := none
  time : Option Int := none
  feedback : Option Int := none
  high_cut : Option Int := none
  low_cut : Option Int := none
  level : Option Int := none
deriving DecidableEq, Repr

/-- `ReverbState` dataclass (state.py lines 133-145). -/
structure ReverbState where
  onFlag : Option Bool := none
  kind : Option String := none
  time : Option Int := none
  pre : Option Int := none
  low_cut : Option Int := none
  high_cut : Option Int := none
  high_ratio : Option Int := none
  low_ratio : Option Int := none
  level : Option Int := none
  reverb : Option Int := none
  filter : Option Int := none
deriving DecidableEq, Repr

/-- `GateState` dataclass (state.py lines 148-152). -/
structure GateState where
  onFlag : Option Bool := none
  threshold : Option Int := none
  release : Option Int := none
deriving DecidableEq, Repr

/-- `THR10State` dataclass (state.py lines 155-166).  The sub-records are
always present (Python uses `default_factory`), only leaves are optional. -/
structure THR10State where
  name : Option String := none
  edited : Option Bool := none
  stored : Option Bool := none
  amp : AmpState := {}
  cab : CabState := {}
  compressor : CompressorState := {}
  modulation : ModulationState := {}
  delay : DelayState := {}
  reverb : ReverbState := {}
  gate : GateState := {}
deriving DecidableEq, Repr

/-- A freshly constructed `THR10State()` (every leaf `None`). -/
def THR10State.empty : THR10State := {}

/-! ## Diff / merge engine

`_diff_values` (state.py lines 527-544) and `_merge_dataclasses`
(lines 547-563) recurse generically over dataclass fields; here the
recursion is spelled out per record, in dataclass field order, building the
Python dict as an association list in insertion order. -/

/-- Leaf case of `_diff_values`: a `None` staged value contributes nothing,
otherwise an entry is emitted exactly when `live != staged`. -/
def diff_leaf {α} [DecidableEq α] (toV : α → Value) (path : String)
    (live staged : Option α) : List (String × DiffEntry) :=
  match staged with
  | none => []
  | some v =>
    if live = some v then []
    else [(path, ⟨live.map toV, some (toV v)⟩)]

/-- Leaf case of `_merge_dataclasses`: staged wins when present. -/
def merge_leaf {α} (live staged : Option α) : Option α :=
  match staged with
  | none => live
  | some v => some v

def diff_amp (path : String) (live staged : AmpState) :
    List (String × DiffEntry) :=
  diff_leaf Value.str (path ++ ".model") live.model staged.model ++
  diff_leaf Value.int (path ++ ".gain") live.gain staged.gain ++
  diff_leaf Value.int (path ++ ".master") live.master staged.master ++
  diff_leaf Value.int (path ++ ".bass") live.bass staged.bass ++
  diff_leaf Value.int (path ++ ".middle") live.middle staged.middle ++
  diff_leaf Value.int (path ++ ".treble") live.treble staged.treble

def diff_cab (path : String) (live staged : CabState) :
    List (String × DiffEntry) :=
  diff_leaf Value.str (path ++ ".model") live.model staged.model

def diff_compressor (path : String) (live staged : CompressorState) :
    List (String × DiffEntry) :=
  diff_leaf Value.bool (path ++ ".on") live.onFlag staged.onFlag ++
  diff_leaf Value.str (path ++ ".kind") live.kind staged.kind ++
  diff_leaf Value.int (path ++ ".sustain") live.sustain staged.sustain ++
  diff_leaf Value.int (path ++ ".output") live.output staged.output ++
  diff_leaf Value.int (path ++ ".threshold") live.threshold staged.threshold ++
  diff_leaf Value.int (path ++ ".attack") live.attack staged.attack ++
  diff_leaf Value.int (path ++ ".release") live.release staged.release ++
  diff_leaf Value.str (path ++ ".ratio") live.ratioName staged.ratioName ++
  diff_leaf Value.str (path ++ ".knee") live.knee staged.knee

def diff_modulation (path : String) (live staged : ModulationState) :
    List (String × DiffEntry) :=
  diff_leaf Value.bool (path ++ ".on") live.onFlag staged.onFlag ++
  diff_leaf Value.str (path ++ ".kind") live.kind staged.kind ++
  diff_leaf Value.int (path ++ ".speed") live.speed staged.speed ++
  diff_leaf Value.int (path ++ ".depth") live.depth staged.depth ++
  diff_leaf Value.int (path ++ ".mix") live.mix staged.mix ++
  diff_leaf Value.int (path ++ ".manual") live.manual staged.manual ++
  diff_leaf Value.int (path ++ ".feedback") live.feedback staged.feedback ++
  diff_leaf Value.int (path ++ ".spread") live.spread staged.spread ++
  diff_leaf Value.int (path ++ ".freq") live.freq staged.freq

def diff_delay (path : String) (live staged : DelayState) :
    List (String × DiffEntry) :=
  diff_leaf Value.bool (path ++ ".on") live.onFlag staged.onFlag ++
  diff_leaf Value.int (path ++ ".time") live.time staged.time ++
  diff_leaf Value.int (path ++ ".feedback") live.feedback staged.feedback ++
  diff_leaf Value.int (path ++ ".high_cut") live.high_cut staged.high_cut ++
  diff_leaf Value.int (path ++ ".low_cut") live.low_cut staged.low_cut ++
  diff_leaf Value.int (path ++ ".level") live.level staged.level

def diff_reverb (path : String) (live staged : ReverbState) :
    List (String × DiffEntry) :=
  diff_leaf Value.bool (path ++ ".on") live.onFlag staged.onFlag ++
  diff_leaf Value.str (path ++ ".kind") live.kind staged.kind ++
  diff_leaf Value.int (path ++ ".time") live.time staged.time ++
  diff_leaf Value.int (path ++ ".pre") live.pre staged.pre ++
  diff_leaf Value.int (path ++ ".low_cut") live.low_cut staged.low_cut ++
  diff_leaf Value.int (path ++ ".high_cut") live.high_cut staged.high_cut ++
  diff_leaf Value.int (path ++ ".high_ratio") live.high_ratio staged.high_ratio ++
  diff_leaf Value.int (path ++ ".low_ratio") live.low_ratio staged.low_ratio ++
  diff_leaf Value.int (path ++ ".level") live.level staged.level ++
  diff_leaf Value.int (path ++ ".reverb") live.reverb staged.reverb ++
  diff_leaf Value.int (path ++ ".filter") live.filter staged.filter

def diff_gate (path : String) (live staged : GateState) :
    List (String × DiffEntry) :=
  diff_leaf Value.bool (path ++ ".on") live.onFlag staged.onFlag ++
  diff_leaf Value.int (path ++ ".threshold") live.threshold staged.threshold ++
  diff_leaf Value.int (path ++ ".release") live.release staged.release

/-- `diff_state` (state.py lines 266-270), with `_diff_values` unrolled over
the fixed record shape.  The top-level call uses the empty path, so the
top-level fields use their bare names. -/
def diff_state (live staged : THR10State) : List (String × DiffEntry) :=
  diff_leaf Value.str "name" live.name staged.name ++
  diff_leaf Value.bool "edited" live.edited staged.edited ++
  diff_leaf Value.bool "stored" live.stored staged.stored ++
  diff_amp "amp" live.amp staged.amp ++
  diff_cab "cab" live.cab staged.cab ++
  diff_compressor "compressor" live.compressor staged.compressor ++
  diff_modulation "modulation" live.modulation staged.modulation ++
  diff_delay "delay" live.delay staged.delay ++
  diff_reverb "reverb" live.reverb staged.reverb ++
  diff_gate "gate" live.gate staged.gate

def merge_amp (live staged : AmpState) : AmpState where
  model := merge_leaf live.model staged.model
  gain := merge_leaf live.gain staged.gain
  master := merge_leaf live.master staged.master
  bass := merge_leaf live.bass staged.bass
  middle := merge_leaf live.middle staged.middle
  treble := merge_leaf live.treble staged.treble

def merge_cab (live staged : CabState) : CabState where
  model := merge_leaf live.model staged.model

def merge_compressor (live staged : CompressorState) : CompressorState where
  onFlag := merge_leaf live.onFlag staged.onFlag
  kind := merge_leaf live.kind staged.kind
  sustain := merge_leaf live.sustain staged.sustain
  output := merge_leaf live.output staged.output
  threshold := merge_leaf live.threshold staged.threshold
  attack := merge_leaf live.attack staged.attack
  release := merge_leaf live.release staged.release
  ratioName := merge_leaf live.ratioName staged.ratioName
  knee := merge_leaf live.knee staged.knee

def merge_modulation (live staged : ModulationState) : ModulationState where
  onFlag := merge_leaf live.onFlag staged.onFlag
  kind := merge_leaf live.kind staged.kind
  speed := merge_leaf live.speed staged.speed
  depth := merge_leaf live.depth staged.depth
  mix := merge_leaf live.mix staged.mix
  manual := merge_leaf live.manual staged.manual
  feedback := merge_leaf live.feedback staged.feedback
  spread := merge_leaf live.spread staged.spread
  freq := merge_leaf live.freq staged.freq

def merge_delay (live staged : DelayState) : DelayState where
  onFlag := merge_leaf live.onFlag staged.onFlag
  time := merge_leaf live.time staged.time
  feedback := merge_leaf live.feedback staged.feedback
  high_cut := merge_leaf live.high_cut staged.high_cut
  low_cut := merge_leaf live.low_cut staged.low_cut
  level := merge_leaf live.level staged.level

def merge_reverb (live staged : ReverbState) : ReverbState where
  onFlag := merge_leaf live.onFlag staged.onFlag
  kind := merge_leaf live.kind staged.kind
  time := merge_leaf live.time staged.time
  pre := merge_leaf live.pre staged.pre
  low_cut := merge_leaf live.low_cut staged.low_cut
  high_cut := merge_leaf live.high_cut staged.high_cut
  high_ratio := merge_leaf live.high_ratio staged.high_ratio
  low_ratio := merge_leaf live.low_ratio staged.low_ratio
  level := merge_leaf live.level staged.level
  reverb := merge_leaf live.reverb staged.reverb
  filter := merge_leaf live.filter staged.filter

def merge_gate (live staged : GateState) : GateState where
  onFlag := merge_leaf live.onFlag staged.onFlag
  threshold := merge_leaf live.threshold staged.threshold
  release := merge_leaf live.release staged.release

/-- `apply_state` / `merge_state` (state.py lines 273-280), with
`_merge_dataclasses` unrolled over the fixed record shape. -/
def merge_state (live staged : THR10State) : THR10State where
  name := merge_leaf live.name staged.name
  edited := merge_leaf live.edited staged.edited
  stored := merge_leaf live.stored staged.stored
  amp := merge_amp live.amp staged.amp
  cab := merge_cab live.cab staged.cab
  compressor := merge_compressor live.compressor staged.compressor
  modulation := merge_modulation live.modulation staged.modulation
  delay := merge_delay live.delay staged.delay
  reverb := merge_reverb live.reverb staged.reverb
  gate := merge_gate live.gate staged.gate

/-! ## Parameter block codec

Byte offsets copied from state.py lines 27-79.  The parameter block
(`[0] * THR_SYSEX_SIZE`, a list mutated by index assignment) is embedded as
a total function `Nat → Int`; `Block.set` is one index assignment. -/

@[simp] def AMP_INDEX : Nat := 128
@[simp] def CAB_INDEX : Nat := 134

@[simp] def COMPRESSOR_TYPE_INDEX : Nat := 144
@[simp] def COMPRESSOR_STOMP_SUSTAIN_INDEX : Nat := 145
@[simp] def COMPRESSOR_STOMP_OUTPUT_INDEX : Nat := 146
@[simp] def COMPRESSOR_RACK_THRESHOLD_INDEX : Nat := 146
@[simp] def COMPRESSOR_RACK_ATTACK_INDEX : Nat := 147
@[simp] def COMPRESSOR_RACK_RELEASE_INDEX : Nat := 148
@[simp] def COMPRESSOR_RACK_RATIO_INDEX : Nat := 149
@[simp] def COMPRESSOR_RACK_KNEE_INDEX : Nat := 150
@[simp] def COMPRESSOR_RACK_OUTPUT_INDEX : Nat := 151
@[simp] def COMPRESSOR_ON_INDEX : Nat := 159

@[simp] def MODULATION_TYPE_INDEX : Nat := 160
@[simp] def MODULATION_SPEED_INDEX : Nat := 161
@[simp] def MODULATION_MANUAL_INDEX : Nat := 162
@[simp] def MODULATION_DEPTH_CHORUS_INDEX : Nat := 162
@[simp] def MODULATION_DEPTH_INDEX : Nat := 163
@[simp] def MODULATION_MIX_INDEX : Nat := 163
@[simp] def MODULATION_FEEDBACK_INDEX : Nat := 164
@[simp] def MODULATION_SPREAD_INDEX : Nat := 165
@[simp] def MODULATION_ON_INDEX : Nat := 175

@[simp] def DELAY_TIME_INDEX : Nat := 177
@[simp] def DELAY_FEEDBACK_INDEX : Nat := 179
@[simp] def DELAY_HIGH_CUT_INDEX : Nat := 180
@[simp] def DELAY_LOW_CUT_INDEX : Nat := 182
@[simp] def DELAY_LEVEL_INDEX : Nat := 184
@[simp] def DELAY_ON_INDEX : Nat := 191

@[simp] def REVERB_TYPE_INDEX : Nat := 192
@[simp] def REVERB_TIME_INDEX : Nat := 193
@[simp] def REVERB_PRE_INDEX : Nat := 195
@[simp] def REVERB_LOW_CUT_INDEX : Nat := 197
@[simp] def REVERB_HIGH_CUT_INDEX : Nat := 199
@[simp] def REVERB_HIGH_RATIO_INDEX : Nat := 201
@[simp] def REVERB_LOW_RATIO_INDEX : Nat := 202
@[simp] def REVERB_LEVEL_INDEX : Nat := 203
@[simp] def REVERB_SPRING_REVERB_INDEX : Nat := 193
@[simp] def REVERB_SPRING_FILTER_INDEX : Nat := 194
@[simp] def REVERB_ON_INDEX : Nat := 207

@[simp] def GATE_THRESHOLD_INDEX : Nat := 209
@[simp] def GATE_RELEASE_INDEX : Nat := 210
@[simp] def GATE_ON_INDEX : Nat := 223

/-- Modelled from the spec: `THR_CONSTANTS.THR_SETTINGS_NAME_SIZE` lives in
`sysex_tones/THR/CONSTANTS.py`, which is not under src/.  The spec only says
"device-defined max name length"; the value is irrelevant to every claim as
long as the name region stays below offset 128. -/
@[simp] def THR_SETTINGS_NAME_SIZE : Nat := 64

/-- The parameter block, `data = [0] * THR_SYSEX_SIZE` embedded as a total
function from byte offset to stored value. -/
abbrev Block := Nat → Int

/-- `data[i] = v`. -/
def Block.set (b : Block) (i : Nat) (v : Int) : Block :=
  fun j => if j = i then v else b j

/-- `[0] * THR_SYSEX_SIZE`. -/
def Block.init : Block := fun _ => 0

theorem Block.set_apply (b : Block) (i : Nat) (v : Int) (j : Nat) :
    Block.set b i v j = if j = i then v else b j := rfl

/-- A `[min, max]` pair from the `THR10_STREAM_LIMITS` /
`THR10_STREAM_SUBLIMITS` tables. -/
structure Limits where
  lo : Int
  hi : Int
deriving DecidableEq, Repr

/-- Modelled from the spec: `sysex_tones.get_minmax` is defined in
`sysex_tones/__init__.py`, which is not under src/.  The spec's clamping
rule: values are "clamped, never rejected" to `[min, max]`. -/
def get_minmax (value lo hi : Int) : Int :=
  let v := if value < lo then lo else value
  if v > hi then hi else v

/-- `_limit_value` (state.py lines 416-419): `None` falls back to the
minimum, then the value is clamped. -/
def limit_value (value : Option Int) (lims : Limits) : Int :=
  match value with
  | none => get_minmax lims.lo lims.lo lims.hi
  | some v => get_minmax v lims.lo lims.hi

/-- Python `str.lower()`, character-wise.  `Char.toLower` only folds basic
Latin letters, which covers every name the tables hold. -/
def lower_str (s : String) : String := ⟨s.data.map Char.toLower⟩

/-- `_option_index` (state.py lines 422-431): case-insensitive index lookup
with a fallback default.  The `isinstance(value, int)` branch cannot be
reached from the typed state (every caller passes an optional string). -/
def option_index (value : Option String) (options : List String)
    (d : Nat) : Int :=
  match value with
  | none => d
  | some v =>
    match options.findIdx? (fun o => lower_str o = lower_str v) with
    | some i => i
    | none => d

/-- `_on_off_value` (state.py lines 444-447): Python truthiness of the
optional flag — `True` encodes as `0x00`, `False` and `None` as `0x7f`. -/
def on_off_value (value : Option Bool) : Int :=
  if value.getD false then 0x00 else 0x7f

/-- Modelled from the spec: `THR10_COMPRESSOR_NAMES` lives in
`sysex_tones/THR10/CONSTANTS.py`, not under src/; spec §3 gives the variant
order Stomp, Rack. -/
def compressor_names : List String := ["Stomp", "Rack"]

/-- Modelled from the spec: spec §3 gives the modulation variant order
Chorus, Flanger, Tremelo, Phaser. -/
def modulation_names : List String := ["Chorus", "Flanger", "Tremelo", "Phaser"]

/-- Modelled from the spec: spec §4.1 gives Hall/Room/Plate as reverb
indices 0/1/2 and Spring as the remaining ("any other index") variant. -/
def reverb_names : List String := ["Hall", "Room", "Plate", "Spring"]

/-- Modelled from the spec: the numeric `[min, max]` tables
(`THR10_STREAM_LIMITS`, `THR10_STREAM_SUBLIMITS`) and the amp/cab/ratio/knee
name lists live in CONSTANTS modules not under src/; the spec gives no
numeric values, so they are abstract parameters of the encoder. -/
structure Constants where
  ampNames : List String
  cabNames : List String
  ratioNames : List String
  kneeNames : List String
  controlGain : Limits
  controlMaster : Limits
  controlBass : Limits
  controlMiddle : Limits
  controlTreble : Limits
  stompSustain : Limits
  stompOutput : Limits
  rackThreshold : Limits
  rackAttack : Limits
  rackRelease : Limits
  rackOutput : Limits
  chorusSpeed : Limits
  chorusDepth : Limits
  chorusMix : Limits
  flangerSpeed : Limits
  flangerManual : Limits
  flangerDepth : Limits
  flangerFeedback : Limits
  flangerSpread : Limits
  tremeloFreq : Limits
  tremeloDepth : Limits
  phaserSpeed : Limits
  phaserManual : Limits
  phaserDepth : Limits
  phaserFeedback : Limits
  delayTime : Limits
  delayFeedback : Limits
  delayHighCut : Limits
  delayLowCut : Limits
  delayLevel : Limits
  reverbTime : Limits
  reverbPre : Limits
  reverbLowCut : Limits
  reverbHighCut : Limits
  reverbHighRatio : Limits
  reverbLowRatio : Limits
  reverbLevel : Limits
  reverbReverb : Limits
  reverbFilter : Limits
  gateThreshold : Limits
  gateRelease : Limits
deriving Repr

/-- Modelled from the spec: `sysex_tones.convert_to_midi_int` plus the
`struct.pack` slicing of `_encode_midi_int` (state.py lines 405-407) is not
under src/; the spec's 14-bit packing rule splits the value into a high and
a low 7-bit byte.  Clamped device values are non-negative, for which `%` on
`Int` agrees with the Python operators. -/
def encode_midi_int (value : Int) : Int × Int :=
  ((value / 128) % 128, value % 128)

/-- `_set_midi_int` (state.py lines 410-413): write the high byte at
`start_index` and the low byte at `start_index + 1`. -/
def set_midi_int (b : Block) (start_index : Nat) (value : Int) : Block :=
  let encoded := encode_midi_int value
  (b.set start_index encoded.1).set (start_index + 1) encoded.2

/-- Python truthiness of an optional string (`if compressor.kind:`):
`None` and `''` are falsy. -/
def truthy_str (s : Option String) : Bool :=
  match s with
  | none => false
  | some v => v ≠ ""

/-- Sibling-field fallback of `_infer_compressor_kind`
(state.py lines 491-498). -/
def compressor_kind_fallback (c : CompressorState) : String :=
  if c.threshold.isSome || c.attack.isSome || c.release.isSome ||
      c.ratioName.isSome || c.knee.isSome then "Rack"
  else if c.sustain.isSome || c.output.isSome then "Stomp"
  else "Stomp"

/-- `_infer_compressor_kind` (state.py lines 491-498): a truthy explicit
`kind` wins, otherwise infer from which sibling fields are set. -/
def infer_compressor_kind (c : CompressorState) : String :=
  match c.kind with
  | some k => if k = "" then compressor_kind_fallback c else k
  | none => compressor_kind_fallback c

/-- Sibling-field fallback of `_infer_modulation_kind`
(state.py lines 501-512). -/
def modulation_kind_fallback (m : ModulationState) : String :=
  if m.spread.isSome || m.manual.isSome then "Flanger"
  else if m.freq.isSome then "Tremelo"
  else if m.feedback.isSome then "Phaser"
  else if m.mix.isSome then "Chorus"
  else "Chorus"

/-- `_infer_modulation_kind` (state.py lines 501-512). -/
def infer_modulation_kind (m : ModulationState) : String :=
  match m.kind with
  | some k => if k = "" then modulation_kind_fallback m else k
  | none => modulation_kind_fallback m

/-- Sibling-field fallback of `_infer_reverb_kind`
(state.py lines 515-520). -/
def reverb_kind_fallback (r : ReverbState) : String :=
  if r.reverb.isSome || r.filter.isSome then "Spring"
  else "Hall"

/-- `_infer_reverb_kind` (state.py lines 515-520). -/
def infer_reverb_kind (r : ReverbState) : String :=
  match r.kind with
  | some k => if k = "" then reverb_kind_fallback r else k
  | none => reverb_kind_fallback r

/-- ASCII-encode with `errors='ignore'` (drop non-ASCII), then truncate to
the name region size (`_apply_name`, state.py line 299). -/
def ascii_bytes (s : String) : List Nat :=
  ((s.data.filter (fun c => c.toNat < 128)).map Char.toNat).take
    THR_SETTINGS_NAME_SIZE

/-- `_apply_name` (state.py lines 296-303): a falsy name (None or empty)
leaves the block untouched; otherwise the whole name region is zeroed and
the encoded bytes written from offset 0.  The zero-then-overwrite loop pair
is expressed pointwise. -/
def apply_name (b : Block) (name : Option String) : Block :=
  match name with
  | none => b
  | some s =>
    if s = "" then b
    else
      let bytes := ascii_bytes s
      fun j =>
        if j < THR_SETTINGS_NAME_SIZE then ((bytes.getD j 0 : Nat) : Int)
        else b j

/-- `_apply_amp` (state.py lines 306-312); the `_CONTROL_INDICES` dict loop
is unrolled in its insertion order gain, master, bass, middle, treble. -/
def apply_amp (C : Constants) (b : Block) (amp : AmpState) : Block :=
  let b := b.set AMP_INDEX (option_index amp.model C.ampNames 0)
  let b := b.set 129 (limit_value amp.gain C.controlGain)
  let b := b.set 130 (limit_value amp.master C.controlMaster)
  let b := b.set 131 (limit_value amp.bass C.controlBass)
  let b := b.set 132 (limit_value amp.middle C.controlMiddle)
  b.set 133 (limit_value amp.treble C.controlTreble)

/-- `_apply_cab` (state.py lines 315-317). -/
def apply_cab (C : Constants) (b : Block) (cab : CabState) : Block :=
  b.set CAB_INDEX (option_index cab.model C.cabNames 0)

/-- `_apply_compressor` (state.py lines 320-336). -/
def apply_compressor (C : Constants) (b : Block) (c : CompressorState) :
    Block :=
  let kind := infer_compressor_kind c
  let kind_index := option_index (some kind) compressor_names 0
  let b := b.set COMPRESSOR_TYPE_INDEX kind_index
  let b := b.set COMPRESSOR_ON_INDEX (on_off_value c.onFlag)
  if kind_index = 0 then
    let b := b.set COMPRESSOR_STOMP_SUSTAIN_INDEX
      (limit_value c.sustain C.stompSustain)
    b.set COMPRESSOR_STOMP_OUTPUT_INDEX (limit_value c.output C.stompOutput)
  else
    let b := set_midi_int b COMPRESSOR_RACK_THRESHOLD_INDEX
      (limit_value c.threshold C.rackThreshold)
    let b := b.set COMPRESSOR_RACK_ATTACK_INDEX
      (limit_value c.attack C.rackAttack)
    let b := b.set COMPRESSOR_RACK_RELEASE_INDEX
      (limit_value c.release C.rackRelease)
    let b := b.set COMPRESSOR_RACK_RATIO_INDEX
      (option_index c.ratioName C.ratioNames 0)
    let b := b.set COMPRESSOR_RACK_KNEE_INDEX
      (option_index c.knee C.kneeNames 0)
    set_midi_int b COMPRESSOR_RACK_OUTPUT_INDEX
      (limit_value c.output C.rackOutput)

/-- `_apply_modulation` (state.py lines 339-366). -/
def apply_modulation (C : Constants) (b : Block) (m : ModulationState) :
    Block :=
  let kind := infer_modulation_kind m
  let kind_index := option_index (some kind) modulation_names 0
  let b := b.set MODULATION_TYPE_INDEX kind_index
  let b := b.set MODULATION_ON_INDEX (on_off_value m.onFlag)
  if kind_index = 0 then
    let b := b.set MODULATION_SPEED_INDEX (limit_value m.speed C.chorusSpeed)
    let b := b.set MODULATION_DEPTH_CHORUS_INDEX
      (limit_value m.depth C.chorusDepth)
    b.set MODULATION_MIX_INDEX (limit_value m.mix C.chorusMix)
  else if kind_index = 1 then
    let b := b.set MODULATION_SPEED_INDEX (limit_value m.speed C.flangerSpeed)
    let b := b.set MODULATION_MANUAL_INDEX
      (limit_value m.manual C.flangerManual)
    let b := b.set MODULATION_DEPTH_INDEX (limit_value m.depth C.flangerDepth)
    let b := b.set MODULATION_FEEDBACK_INDEX
      (limit_value m.feedback C.flangerFeedback)
    b.set MODULATION_SPREAD_INDEX (limit_value m.spread C.flangerSpread)
  else if kind_index = 2 then
    let b := b.set MODULATION_SPEED_INDEX (limit_value m.freq C.tremeloFreq)
    b.set MODULATION_DEPTH_CHORUS_INDEX (limit_value m.depth C.tremeloDepth)
  else
    let b := b.set MODULATION_SPEED_INDEX (limit_value m.speed C.phaserSpeed)
    let b := b.set MODULATION_MANUAL_INDEX
      (limit_value m.manual C.phaserManual)
    let b := b.set MODULATION_DEPTH_INDEX (limit_value m.depth C.phaserDepth)
    b.set MODULATION_FEEDBACK_INDEX (limit_value m.feedback C.phaserFeedback)

/-- `_apply_delay` (state.py lines 368-375). -/
def apply_delay (C : Constants) (b : Block) (d : DelayState) : Block :=
  let b := b.set DELAY_ON_INDEX (on_off_value d.onFlag)
  let b := set_midi_int b DELAY_TIME_INDEX (limit_value d.time C.delayTime)
  let b := b.set DELAY_FEEDBACK_INDEX (limit_value d.feedback C.delayFeedback)
  let b := set_midi_int b DELAY_HIGH_CUT_INDEX
    (limit_value d.high_cut C.delayHighCut)
  let b := set_midi_int b DELAY_LOW_CUT_INDEX
    (limit_value d.low_cut C.delayLowCut)
  b.set DELAY_LEVEL_INDEX (limit_value d.level C.delayLevel)

/-- `_apply_reverb` (state.py lines 378-395). -/
def apply_reverb (C : Constants) (b : Block) (r : ReverbState) : Block :=
  let kind := infer_reverb_kind r
  let kind_index := option_index (some kind) reverb_names 0
  let b := b.set REVERB_TYPE_INDEX kind_index
  let b := b.set REVERB_ON_INDEX (on_off_value r.onFlag)
  if kind_index = 0 ∨ kind_index = 1 ∨ kind_index = 2 then
    let b := set_midi_int b REVERB_TIME_INDEX (limit_value r.time C.reverbTime)
    let b := set_midi_int b REVERB_PRE_INDEX (limit_value r.pre C.reverbPre)
    let b := set_midi_int b REVERB_LOW_CUT_INDEX
      (limit_value r.low_cut C.reverbLowCut)
    let b := set_midi_int b REVERB_HIGH_CUT_INDEX
      (limit_value r.high_cut C.reverbHighCut)
    let b := b.set REVERB_HIGH_RATIO_INDEX
      (limit_value r.high_ratio C.reverbHighRatio)
    let b := b.set REVERB_LOW_RATIO_INDEX
      (limit_value r.low_ratio C.reverbLowRatio)
    b.set REVERB_LEVEL_INDEX (limit_value r.level C.reverbLevel)
  else
    let b := b.set REVERB_SPRING_REVERB_INDEX
      (limit_value r.reverb C.reverbReverb)
    b.set REVERB_SPRING_FILTER_INDEX (limit_value r.filter C.reverbFilter)

/-- `_apply_gate` (state.py lines 398-402). -/
def apply_gate (C : Constants) (b : Block) (g : GateState) : Block :=
  let b := b.set GATE_ON_INDEX (on_off_value g.onFlag)
  let b := b.set GATE_THRESHOLD_INDEX (limit_value g.threshold C.gateThreshold)
  b.set GATE_RELEASE_INDEX (limit_value g.release C.gateRelease)

/-- `_state_to_data` (state.py lines 283-293): zero block, then apply every
section in source order. -/
def state_to_data (C : Constants) (state : THR10State) : Block :=
  apply_gate C
    (apply_reverb C
      (apply_delay C
        (apply_modulation C
          (apply_compressor C
            (apply_cab C
              (apply_amp C
                (apply_name Block.init state.name)
                state.amp)
              state.cab)
            state.compressor)
          state.modulation)
        state.delay)
      state.reverb)
    state.gate

/-! ## Synchronization controller

`THR10Controller` (controller.py).  The transport and clock are external
collaborators: the clock is an injected parameter, so each operation takes
the current reading `now` explicitly, and device I/O is represented by the
list of states written during the call (`_write_state` sends the encoded
merged state).  `poll_interval` only feeds `time.sleep` and has no
observable effect in the model. -/

/-- Controller state (controller.py lines 23-31).  `thr`, `poll_interval`
and the clock callable are the external collaborators described above. -/
structure Controller where
  live_state : THR10State
  staged_state : THR10State
  conflicts : List (String × ConflictEntry)
  debounce_seconds : ℚ
  pending_apply : Bool
  last_edit_time : Option ℚ
deriving DecidableEq, Repr

/-- A freshly constructed controller with the default 0.3 s debounce
window (controller.py lines 15-31). -/
def Controller.fresh : Controller where
  live_state := THR10State.empty
  staged_state := THR10State.empty
  conflicts := []
  debounce_seconds := 3 / 10
  pending_apply := false
  last_edit_time := none

/-- `_detect_conflicts` (controller.py lines 108-122), as a function of the
previous live state, the staged state and the freshly observed device
state.  A conflict is recorded at each staged-diff path that also appears
in the device diff, combining the staged entry's live/staged values with
the device diff's observed value. -/
def detect_conflicts (live staged device : THR10State) :
    List (String × ConflictEntry) :=
  let staged_diffs := diff_state live staged
  let device_diffs := diff_state live device
  if staged_diffs = [] ∨ device_diffs = [] then []
  else
    staged_diffs.filterMap (fun pe =>
      match device_diffs.lookup pe.1 with
      | none => none
      | some dd => some (pe.1, ⟨pe.2.live, pe.2.staged, dd.staged⟩))

/-- `apply_staged` (controller.py lines 60-72).  Returns whether a write
occurred, the new controller state, and the list of states written to the
device (`_write_state` of the merged state when the diff is non-empty). -/
def apply_staged (c : Controller) : Bool × Controller × List THR10State :=
  let diffs := diff_state c.live_state c.staged_state
  if diffs = [] then
    (false, {c with pending_apply := false}, [])
  else
    let merged := merge_state c.live_state c.staged_state
    (true,
      {c with live_state := merged,
              staged_state := THR10State.empty,
              pending_apply := false,
              conflicts := []},
      [merged])

/-- `discard_staged` (controller.py lines 74-78): reset staged, clear the
pending flag and the conflicts; the device is not touched. -/
def discard_staged (c : Controller) : Controller :=
  {c with staged_state := THR10State.empty,
          pending_apply := false,
          conflicts := []}

/-- `flush_debounced` (controller.py lines 86-96). -/
def flush_debounced (c : Controller) (now : ℚ) (force : Bool) :
    Bool × Controller × List THR10State :=
  if !c.pending_apply then (false, c, [])
  else if force then apply_staged c
  else
    match c.last_edit_time with
    | none => (false, c, [])
    | some t =>
      if now - t < c.debounce_seconds then (false, c, [])
      else apply_staged c

/-- The polling loop of `refresh_from_device` (controller.py lines 41-53).
Each trace element is one loop iteration: the `extract_dump()` result and
the `self._clock()` reading used by the timeout check of that iteration.
The loop body breaks on data, then breaks when `timeout_s is None`, then
breaks when the elapsed time reaches the timeout, otherwise sleeps and
polls again; an exhausted trace means no data ever arrived. -/
def refresh_poll {α} (timeout_s : Option ℚ) (start : ℚ) :
    List (Option α × ℚ) → Option α
  | [] => none
  | (attempt, now) :: rest =>
    match attempt with
    | some dump => some dump
    | none =>
      match timeout_s with
      | none => none
      | some t =>
        if now - start ≥ t then none
        else refresh_poll timeout_s start rest

/-! ## Dotted-path parameter editing

`set_param` / `_set_state_value` / `_normalize_field` (controller.py lines
80-84, 124-141).  Python resolves segments with `hasattr`/`getattr` against
the live object graph; the model resolves them against the Structured
State's field names.  A cursor tracks which record the walk has reached; a
walk that steps into a leaf field mirrors Python's cursor becoming the leaf
value, whose attribute lookups are modelled as failing. -/

/-- The error raised by `_set_state_value`: `ValueError` for an empty path,
`AttributeError` "Unknown parameter group" / "Unknown parameter" carrying
the offending raw segment.  Two extra constructors mark behavior the typed
model cannot represent: Python's `setattr` would also accept a final
segment naming a whole sub-record (overwriting the record with a scalar)
and a value whose type does not match the field's annotation. -/
inductive PathErr
  | empty_path : PathErr
  | unknown_group : String → PathErr
  | unknown_parameter : String → PathErr
  | non_leaf_assignment : String → PathErr
  | type_mismatch : String → PathErr
deriving DecidableEq, Repr

/-- Python `str.strip()`: drop leading and trailing whitespace. -/
def trim_str (s : String) : String :=
  ⟨((s.data.dropWhile Char.isWhitespace).reverse.dropWhile
      Char.isWhitespace).reverse⟩

/-- Python `str.replace(a, b)` for one-character patterns, which is the
only shape the source uses (`'/'→'.'`, `' '→'_'`, `'-'→'_'`). -/
def replace_char (s : String) (a b : Char) : String :=
  ⟨s.data.map (fun c => if c = a then b else c)⟩

/-- Python `str.split(sep)` for a one-character separator: empty pieces
are kept (the caller filters them). -/
def split_chars (sep : Char) : List Char → List (List Char)
  | [] => [[]]
  | c :: rest =>
    match split_chars sep rest with
    | [] => [[c]]
    | piece :: pieces =>
      if c = sep then [] :: piece :: pieces else (c :: piece) :: pieces

/-- `_normalize_field` (controller.py lines 139-141): strip, lower-case,
spaces and hyphens to underscores. -/
def normalize_field (name : String) : String :=
  replace_char (replace_char (lower_str (trim_str name)) ' ' '_') '-' '_'

/-- Path splitting of `_set_state_value` (controller.py line 125): `/`
becomes `.`, split on `.`, drop empty segments. -/
def split_path (path : String) : List String :=
  ((split_chars '.' (replace_char path '/' '.').data).map String.mk).filter
    (fun part => part ≠ "")

/-- The object the resolution cursor currently points at: the root state,
one of the seven sub-records, or a leaf value (dead end). -/
inductive Cursor
  | root | ampC | cabC | compressorC | modulationC | delayC | reverbC
  | gateC | leafVal
deriving DecidableEq, Repr

def amp_field_names : List String :=
  ["model", "gain", "master", "bass", "middle", "treble"]

def cab_field_names : List String := ["model"]

def compressor_field_names : List String :=
  ["on", "kind", "sustain", "output", "threshold", "attack", "release",
    "ratio", "knee"]

def modulation_field_names : List String :=
  ["on", "kind", "speed", "depth", "mix", "manual", "feedback", "spread",
    "freq"]

def delay_field_names : List String :=
  ["on", "time", "feedback", "high_cut", "low_cut", "level"]

def reverb_field_names : List String :=
  ["on", "kind", "time", "pre", "low_cut", "high_cut", "high_ratio",
    "low_ratio", "level", "reverb", "filter"]

def gate_field_names : List String := ["on", "threshold", "release"]

/-- One non-final resolution step (`hasattr`/`getattr` walk, controller.py
lines 129-133): the normalized segment must name a field of the current
record; stepping into a leaf field parks the cursor on the leaf value. -/
def step (cur : Cursor) (seg : String) : Except PathErr Cursor :=
  let n := normalize_field seg
  match cur with
  | .root =>
    if n = "amp" then .ok .ampC
    else if n = "cab" then .ok .cabC
    else if n = "compressor" then .ok .compressorC
    else if n = "modulation" then .ok .modulationC
    else if n = "delay" then .ok .delayC
    else if n = "reverb" then .ok .reverbC
    else if n = "gate" then .ok .gateC
    else if n = "name" || n = "edited" || n = "stored" then .ok .leafVal
    else .error (.unknown_group seg)
  | .ampC =>
    if amp_field_names.contains n then .ok .leafVal
    else .error (.unknown_group seg)
  | .cabC =>
    if cab_field_names.contains n then .ok .leafVal
    else .error (.unknown_group seg)
  | .compressorC =>
    if compressor_field_names.contains n then .ok .leafVal
    else .error (.unknown_group seg)
  | .modulationC =>
    if modulation_field_names.contains n then .ok .leafVal
    else .error (.unknown_group seg)
  | .delayC =>
    if delay_field_names.contains n then .ok .leafVal
    else .error (.unknown_group seg)
  | .reverbC =>
    if reverb_field_names.contains n then .ok .leafVal
    else .error (.unknown_group seg)
  | .gateC =>
    if gate_field_names.contains n then .ok .leafVal
    else .error (.unknown_group seg)
  | .leafVal => .error (.unknown_group seg)

def assign_amp (a : AmpState) (seg : String) (v : Value) :
    Except PathErr AmpState :=
  let n := normalize_field seg
  if n = "model" then
    match v with
    | .str s => .ok {a with model := some s}
    | _ => .error (.type_mismatch n)
  else if n = "gain" then
    match v with
    | .int i => .ok {a with gain := some i}
    | _ => .error (.type_mismatch n)
  else if n = "master" then
    match v with
    | .int i => .ok {a with master := some i}
    | _ => .error (.type_mismatch n)
  else if n = "bass" then
    match v with
    | .int i => .ok {a with bass := some i}
    | _ => .error (.type_mismatch n)
  else if n = "middle" then
    match v with
    | .int i => .ok {a with middle := some i}
    | _ => .error (.type_mismatch n)
  else if n = "treble" then
    match v with
    | .int i => .ok {a with treble := some i}
    | _ => .error (.type_mismatch n)
  else .error (.unknown_parameter seg)

def assign_cab (cb : CabState) (seg : String) (v : Value) :
    Except PathErr CabState :=
  let n := normalize_field seg
  if n = "model" then
    match v with
    | .str s => .ok {cb with model := some s}
    | _ => .error (.type_mismatch n)
  else .error (.unknown_parameter seg)

def assign_compressor (c : CompressorState) (seg : String) (v : Value) :
    Except PathErr CompressorState :=
  let n := normalize_field seg
  if n = "on" then
    match v with
    | .bool x => .ok {c with onFlag := some x}
    | _ => .error (.type_mismatch n)
  else if n = "kind" then
    match v with
    | .str s => .ok {c with kind := some s}
    | _ => .error (.type_mismatch n)
  else if n = "sustain" then
    match v with
    | .int i => .ok {c with sustain := some i}
    | _ => .error (.type_mismatch n)
  else if n = "output" then
    match v with
    | .int i => .ok {c with output := some i}
    | _ => .error (.type_mismatch n)
  else if n = "threshold" then
    match v with
    | .int i => .ok {c with threshold := some i}
    | _ => .error (.type_mismatch n)
  else if n = "attack" then
    match v with
    | .int i => .ok {c with attack := some i}
    | _ => .error (.type_mismatch n)
  else if n = "release" then
    match v with
    | .int i => .ok {c with release := some i}
    | _ => .error (.type_mismatch n)
  else if n = "ratio" then
    match v with
    | .str s => .ok {c with ratioName := some s}
    | _ => .error (.type_mismatch n)
  else if n = "knee" then
    match v with
    | .str s => .ok {c with knee := some s}
    | _ => .error (.type_mismatch n)
  else .error (.unknown_parameter seg)

def assign_modulation (m : ModulationState) (seg : String) (v : Value) :
    Except PathErr ModulationState :=
  let n := normalize_field seg
  if n = "on" then
    match v with
    | .bool x => .ok {m with onFlag := some x}
    | _ => .error (.type_mismatch n)
  else if n = "kind" then
    match v with
    | .str s => .ok {m with kind := some s}
    | _ => .error (.type_mismatch n)
  else if n = "speed" then
    match v with
    | .int i => .ok {m with speed := some i}
    | _ => .error (.type_mismatch n)
  else if n = "depth" then
    match v with
    | .int i => .ok {m with depth := some i}
    | _ => .error (.type_mismatch n)
  else if n = "mix" then
    match v with
    | .int i => .ok {m with mix := some i}
    | _ => .error (.type_mismatch n)
  else if n = "manual" then
    match v with
    | .int i => .ok {m with manual := some i}
    | _ => .error (.type_mismatch n)
  else if n = "feedback" then
    match v with
    | .int i => .ok {m with feedback := some i}
    | _ => .error (.type_mismatch n)
  else if n = "spread" then
    match v with
    | .int i => .ok {m with spread := some i}
    | _ => .error (.type_mismatch n)
  else if n = "freq" then
    match v with
    | .int i => .ok {m with freq := some i}
    | _ => .error (.type_mismatch n)
  else .error (.unknown_parameter seg)

def assign_delay (d : DelayState) (seg : String) (v : Value) :
    Except PathErr DelayState :=
  let n := normalize_field seg
  if n = "on" then
    match v with
    | .bool x => .ok {d with onFlag := some x}
    | _ => .error (.type_mismatch n)
  else if n = "time" then
    match v with
    | .int i => .ok {d with time := some i}
    | _ => .error (.type_mismatch n)
  else if n = "feedback" then
    match v with
    | .int i => .ok {d with feedback := some i}
    | _ => .error (.type_mismatch n)
  else if n = "high_cut" then
    match v with
    | .int i => .ok {d with high_cut := some i}
    | _ => .error (.type_mismatch n)
  else if n = "low_cut" then
    match v with
    | .int i => .ok {d with low_cut := some i}
    | _ => .error (.type_mismatch n)
  else if n = "level" then
    match v with
    | .int i => .ok {d with level := some i}
    | _ => .error (.type_mismatch n)
  else .error (.unknown_parameter seg)

def assign_reverb (r : ReverbState) (seg : String) (v : Value) :
    Except PathErr ReverbState :=
  let n := normalize_field seg
  if n = "on" then
    match v with
    | .bool x => .ok {r with onFlag := some x}
    | _ => .error (.type_mismatch n)
  else if n = "kind" then
    match v with
    | .str s => .ok {r with kind := some s}
    | _ => .error (.type_mismatch n)
  else if n = "time" then
    match v with
    | .int i => .ok {r with time := some i}
    | _ => .error (.type_mismatch n)
  else if n = "pre" then
    match v with
    | .int i => .ok {r with pre := some i}
    | _ => .error (.type_mismatch n)
  else if n = "low_cut" then
    match v with
    | .int i => .ok {r with low_cut := some i}
    | _ => .error (.type_mismatch n)
  else if n = "high_cut" then
    match v with
    | .int i => .ok {r with high_cut := some i}
    | _ => .error (.type_mismatch n)
  else if n = "high_ratio" then
    match v with
    | .int i => .ok {r with high_ratio := some i}
    | _ => .error (.type_mismatch n)
  else if n = "low_ratio" then
    match v with
    | .int i => .ok {r with low_ratio := some i}
    | _ => .error (.type_mismatch n)
  else if n = "level" then
    match v with
    | .int i => .ok {r with level := some i}
    | _ => .error (.type_mismatch n)
  else if n = "reverb" then
    match v with
    | .int i => .ok {r with reverb := some i}
    | _ => .error (.type_mismatch n)
  else if n = "filter" then
    match v with
    | .int i => .ok {r with filter := some i}
    | _ => .error (.type_mismatch n)
  else .error (.unknown_parameter seg)

def assign_gate (g : GateState) (seg : String) (v : Value) :
    Except PathErr GateState :=
  let n := normalize_field seg
  if n = "on" then
    match v with
    | .bool x => .ok {g with onFlag := some x}
    | _ => .error (.type_mismatch n)
  else if n = "threshold" then
    match v with
    | .int i => .ok {g with threshold := some i}
    | _ => .error (.type_mismatch n)
  else if n = "release" then
    match v with
    | .int i => .ok {g with release := some i}
    | _ => .error (.type_mismatch n)
  else .error (.unknown_parameter seg)

/-- Final-segment assignment at the root (`setattr(cursor, last, value)`
with the cursor still on the state, controller.py lines 134-137).  A final
segment naming a sub-record is flagged instead of performed (see
`PathErr`). -/
def assign_root (st : THR10State) (seg : String) (v : Value) :
    Except PathErr THR10State :=
  let n := normalize_field seg
  if n = "name" then
    match v with
    | .str s => .ok {st with name := some s}
    | _ => .error (.type_mismatch n)
  else if n = "edited" then
    match v with
    | .bool x => .ok {st with edited := some x}
    | _ => .error (.type_mismatch n)
  else if n = "stored" then
    match v with
    | .bool x => .ok {st with stored := some x}
    | _ => .error (.type_mismatch n)
  else if n = "amp" || n = "cab" || n = "compressor" || n = "modulation" ||
      n = "delay" || n = "reverb" || n = "gate" then
    .error (.non_leaf_assignment seg)
  else .error (.unknown_parameter seg)

/-- Final-segment assignment at the current cursor. -/
def assign_value (st : THR10State) (cur : Cursor) (seg : String)
    (v : Value) : Except PathErr THR10State :=
  match cur with
  | .root => assign_root st seg v
  | .ampC => (assign_amp st.amp seg v).map (fun a => {st with amp := a})
  | .cabC => (assign_cab st.cab seg v).map (fun cb => {st with cab := cb})
  | .compressorC =>
    (assign_compressor st.compressor seg v).map
      (fun c => {st with compressor := c})
  | .modulationC =>
    (assign_modulation st.modulation seg v).map
      (fun m => {st with modulation := m})
  | .delayC => (assign_delay st.delay seg v).map (fun d => {st with delay := d})
  | .reverbC =>
    (assign_reverb st.reverb seg v).map (fun r => {st with reverb := r})
  | .gateC => (assign_gate st.gate seg v).map (fun g => {st with gate := g})
  | .leafVal => .error (.unknown_parameter seg)

/-- The `for part in parts[:-1]` walk followed by the final assignment
(controller.py lines 128-137). -/
def set_state_walk (st : THR10State) (cur : Cursor) (v : Value) :
    List String → Except PathErr THR10State
  | [] => .error .empty_path
  | [seg] => assign_value st cur seg v
  | seg :: rest =>
    match step cur seg with
    | .error e => .error e
    | .ok cur2 => set_state_walk st cur2 v rest

/-- `_set_state_value` (controller.py lines 124-137). -/
def set_state_value (st : THR10State) (path : String) (v : Value) :
    Except PathErr THR10State :=
  match split_path path with
  | [] => .error .empty_path
  | seg :: rest => set_state_walk st .root v (seg :: rest)

/-- `set_param` (controller.py lines 80-84).  In the source the
`AttributeError`/`ValueError` is raised by `_set_state_value` before the
`pending_apply` and `_last_edit_time` mutations, and `setattr` is the last
statement of the walk, so a failing call leaves the controller untouched;
the model returns the error with no new controller. -/
def set_param (c : Controller) (now : ℚ) (path : String) (v : Value) :
    Except PathErr Controller :=
  match set_state_value c.staged_state path v with
  | .error e => .error e
  | .ok st =>
    .ok {c with staged_state := st,
                pending_apply := true,
                last_edit_time := some now}

/-! ## Helper lemmas -/

/-- Writes of `_apply_name` stay inside the name region. -/
theorem apply_name_out (b : Block) (name : Option String) (j : Nat)
    (h : THR_SETTINGS_NAME_SIZE ≤ j) : apply_name b name j = b j := by
  cases name with
  | none => rfl
  | some s =>
    have h64 : ¬ j < 64 := Nat.not_lt.mpr h
    by_cases hs : s = "" <;> simp [apply_name, hs, h64]

/-- A leaf of `merge(live, staged)` never diffs against the staged leaf. -/
theorem diff_leaf_merge_leaf {α} [DecidableEq α] (toV : α → Value)
    (p : String) (l s : Option α) :
    diff_leaf toV p (merge_leaf l s) s = [] := by
  cases s <;> simp [diff_leaf, merge_leaf]

/-- A truthiness-false explicit kind falls through to sibling inference. -/
theorem infer_compressor_kind_of_kind_unset (c : CompressorState)
    (h : truthy_str c.kind = false) :
    infer_compressor_kind c = compressor_kind_fallback c := by
  cases hk : c.kind with
  | none => simp [infer_compressor_kind, hk]
  | some k =>
    rw [hk] at h
    simp [truthy_str] at h
    simp [infer_compressor_kind, hk, h]

theorem infer_modulation_kind_of_kind_unset (m : ModulationState)
    (h : truthy_str m.kind = false) :
    infer_modulation_kind m = modulation_kind_fallback m := by
  cases hk : m.kind with
  | none => simp [infer_modulation_kind, hk]
  | some k =>
    rw [hk] at h
    simp [truthy_str] at h
    simp [infer_modulation_kind, hk, h]

theorem infer_reverb_kind_of_kind_unset (r : ReverbState)
    (h : truthy_str r.kind = false) :
    infer_reverb_kind r = reverb_kind_fallback r := by
  cases hk : r.kind with
  | none => simp [infer_reverb_kind, hk]
  | some k =>
    rw [hk] at h
    simp [truthy_str] at h
    simp [infer_reverb_kind, hk, h]

/-- Every dot-path `diff_state` can emit, in emission order. -/
def all_diff_paths : List String :=
  ["name", "edited", "stored",
    "amp" ++ ".model", "amp" ++ ".gain", "amp" ++ ".master",
    "amp" ++ ".bass", "amp" ++ ".middle", "amp" ++ ".treble",
    "cab" ++ ".model",
    "compressor" ++ ".on", "compressor" ++ ".kind",
    "compressor" ++ ".sustain", "compressor" ++ ".output",
    "compressor" ++ ".threshold", "compressor" ++ ".attack",
    "compressor" ++ ".release", "compressor" ++ ".ratio",
    "compressor" ++ ".knee",
    "modulation" ++ ".on", "modulation" ++ ".kind", "modulation" ++ ".speed",
    "modulation" ++ ".depth", "modulation" ++ ".mix",
    "modulation" ++ ".manual", "modulation" ++ ".feedback",
    "modulation" ++ ".spread", "modulation" ++ ".freq",
    "delay" ++ ".on", "delay" ++ ".time", "delay" ++ ".feedback",
    "delay" ++ ".high_cut", "delay" ++ ".low_cut", "delay" ++ ".level",
    "reverb" ++ ".on", "reverb" ++ ".kind", "reverb" ++ ".time",
    "reverb" ++ ".pre", "reverb" ++ ".low_cut", "reverb" ++ ".high_cut",
    "reverb" ++ ".high_ratio", "reverb" ++ ".low_ratio", "reverb" ++ ".level",
    "reverb" ++ ".reverb", "reverb" ++ ".filter",
    "gate" ++ ".on", "gate" ++ ".threshold", "gate" ++ ".release"]

theorem diff_leaf_keys {α} [DecidableEq α] (toV : α → Value) (p : String)
    (l s : Option α) :
    List.Sublist ((diff_leaf toV p l s).map Prod.fst) [p] := by
  cases s with
  | none => simp [diff_leaf]
  | some v =>
    simp only [diff_leaf]
    split <;> simp

theorem keys_cons_sublist {xs zs : List (String × DiffEntry)} {p : String}
    {rest : List String} (h1 : List.Sublist (xs.map Prod.fst) [p])
    (h2 : List.Sublist (zs.map Prod.fst) rest) :
    List.Sublist ((xs ++ zs).map Prod.fst) (p :: rest) := by
  have := List.Sublist.append h1 h2
  simpa using this

/-- The keys of a diff report are drawn, in order, from the fixed path
list — a diff is a dict with at most one entry per leaf path. -/
theorem diff_state_keys (L S : THR10State) :
    List.Sublist ((diff_state L S).map Prod.fst) all_diff_paths := by
  simp only [diff_state, diff_amp, diff_cab, diff_compressor,
    diff_modulation, diff_delay, diff_reverb, diff_gate, all_diff_paths,
    List.append_assoc]
  repeat
    first
    | exact diff_leaf_keys _ _ _ _
    | refine keys_cons_sublist (diff_leaf_keys _ _ _ _) ?_

theorem all_diff_paths_nodup : all_diff_paths.Nodup := by decide

theorem diff_state_keys_nodup (L S : THR10State) :
    ((diff_state L S).map Prod.fst).Nodup :=
  (diff_state_keys L S).nodup all_diff_paths_nodup

/-- Keyed `filterMap` misses every key the list does not hold. -/
theorem lookup_filterMap_not_mem {β γ : Type} (g : String → β → Option γ)
    (p : String) (xs : List (String × β)) (h : p ∉ xs.map Prod.fst) :
    (xs.filterMap
      (fun pe => (g pe.1 pe.2).map (fun c => (pe.1, c)))).lookup p = none := by
  induction xs with
  | nil => rfl
  | cons hd tl ih =>
    simp only [List.map_cons, List.mem_cons, not_or] at h
    obtain ⟨hk, htl⟩ := h
    have hbf : (p == hd.1) = false := beq_eq_false_iff_ne.mpr hk
    cases hg : g hd.1 hd.2 with
    | none => simp [List.filterMap_cons, hg, ih htl]
    | some c => simp [List.filterMap_cons, hg, List.lookup, hbf, ih htl]

/-- `dict`-style lookup through a key-preserving `filterMap`, provided the
keys are unique (as they are for a Python dict). -/
theorem lookup_filterMap_keyed {β γ : Type} (g : String → β → Option γ)
    (p : String) (xs : List (String × β))
    (hnd : (xs.map Prod.fst).Nodup) :
    (xs.filterMap
      (fun pe => (g pe.1 pe.2).map (fun c => (pe.1, c)))).lookup p =
      match xs.lookup p with
      | none => none
      | some e => g p e := by
  induction xs with
  | nil => rfl
  | cons hd tl ih =>
    obtain ⟨k, e⟩ := hd
    simp only [List.map_cons, List.nodup_cons] at hnd
    obtain ⟨hk, hnd'⟩ := hnd
    by_cases hp : p = k
    · subst hp
      cases hg : g p e with
      | some c => simp [List.filterMap_cons, hg, List.lookup]
      | none =>
        simp only [List.filterMap_cons, hg, Option.map_none', List.lookup,
          beq_self_eq_true]
        exact lookup_filterMap_not_mem g p tl hk
    · have hbf : (p == k) = false := beq_eq_false_iff_ne.mpr hp
      cases hg : g k e with
      | some c => simp [List.filterMap_cons, hg, List.lookup, hbf, ih hnd']
      | none => simp [List.filterMap_cons, hg, List.lookup, hbf, ih hnd']

/-- A concrete limits table used by witnesses (the real
`THR10_STREAM_LIMITS` values are not under src/; any table works for the
quantified theorems). -/
def sample_constants : Constants where
  ampNames := []
  cabNames := []
  ratioNames := []
  kneeNames := []
  controlGain := ⟨0, 100⟩
  controlMaster := ⟨0, 100⟩
  controlBass := ⟨0, 100⟩
  controlMiddle := ⟨0, 100⟩
  controlTreble := ⟨0, 100⟩
  stompSustain := ⟨0, 100⟩
  stompOutput := ⟨0, 100⟩
  rackThreshold := ⟨0, 1000⟩
  rackAttack := ⟨0, 100⟩
  rackRelease := ⟨0, 100⟩
  rackOutput := ⟨0, 1000⟩
  chorusSpeed := ⟨0, 100⟩
  chorusDepth := ⟨0, 100⟩
  chorusMix := ⟨0, 100⟩
  flangerSpeed := ⟨0, 100⟩
  flangerManual := ⟨0, 100⟩
  flangerDepth := ⟨0, 100⟩
  flangerFeedback := ⟨0, 100⟩
  flangerSpread := ⟨0, 100⟩
  tremeloFreq := ⟨0, 100⟩
  tremeloDepth := ⟨0, 100⟩
  phaserSpeed := ⟨0, 100⟩
  phaserManual := ⟨0, 100⟩
  phaserDepth := ⟨0, 100⟩
  phaserFeedback := ⟨0, 100⟩
  delayTime := ⟨1, 9999⟩
  delayFeedback := ⟨0, 100⟩
  delayHighCut := ⟨0, 9999⟩
  delayLowCut := ⟨0, 9999⟩
  delayLevel := ⟨0, 100⟩
  reverbTime := ⟨0, 9999⟩
  reverbPre := ⟨0, 9999⟩
  reverbLowCut := ⟨0, 9999⟩
  reverbHighCut := ⟨0, 9999⟩
  reverbHighRatio := ⟨0, 100⟩
  reverbLowRatio := ⟨0, 100⟩
  reverbLevel := ⟨0, 100⟩
  reverbReverb := ⟨0, 100⟩
  reverbFilter := ⟨0, 100⟩
  gateThreshold := ⟨0, 100⟩
  gateRelease := ⟨0, 100⟩

/-! ## Claims -/

/-- Claim C1: for every effect section with an on flag (compressor offset
159, modulation 175, delay 191, reverb 207, gate 223), encoding a state
with on=true writes byte 0x00 at that flag offset, on=false writes 0x7F,
and an absent (None) on flag also writes 0x7F — the inverted sentinel,
never the booleans 0/1. -/
theorem on_off_sentinel_encoding (C : Constants) (st : THR10State) :
    state_to_data C st 159 = on_off_value st.compressor.onFlag ∧
    state_to_data C st 175 = on_off_value st.modulation.onFlag ∧
    state_to_data C st 191 = on_off_value st.delay.onFlag ∧
    state_to_data C st 207 = on_off_value st.reverb.onFlag ∧
    state_to_data C st 223 = on_off_value st.gate.onFlag ∧
    on_off_value (some true) = 0x00 ∧
    on_off_value (some false) = 0x7f ∧
    on_off_value none = 0x7f := by
  refine ⟨?_, ?_, ?_, ?_, ?_, rfl, rfl, rfl⟩ <;>
    simp [state_to_data, apply_gate, apply_reverb, apply_delay,
      apply_modulation, apply_compressor, apply_cab, apply_amp,
      apply_name_out, set_midi_int, Block.set, ite_apply]

/-- Claim C2: an explicitly set (truthy) kind wins for
Compressor/Modulation/Reverb; an unset kind is inferred from which sibling
fields are set by the fixed first-match order of the source (spread or
manual ⇒ Flanger, then freq ⇒ Tremelo, then feedback ⇒ Phaser, then mix ⇒
Chorus; threshold/attack/release/ratio/knee ⇒ Rack, then sustain/output ⇒
Stomp; reverb/filter ⇒ Spring), and when nothing decides, the category's
first variant is used (Stomp, Chorus, Hall). -/
theorem kind_inference_order :
    (∀ (c : CompressorState) (k : String), c.kind = some k → k ≠ "" →
      infer_compressor_kind c = k) ∧
    (∀ (m : ModulationState) (k : String), m.kind = some k → k ≠ "" →
      infer_modulation_kind m = k) ∧
    (∀ (r : ReverbState) (k : String), r.kind = some k → k ≠ "" →
      infer_reverb_kind r = k) ∧
    (∀ m : ModulationState, truthy_str m.kind = false →
      (m.spread.isSome || m.manual.isSome) = true →
      infer_modulation_kind m = "Flanger") ∧
    (∀ m : ModulationState, truthy_str m.kind = false →
      m.spread = none → m.manual = none → m.freq.isSome = true →
      infer_modulation_kind m = "Tremelo") ∧
    (∀ m : ModulationState, truthy_str m.kind = false →
      m.spread = none → m.manual = none → m.freq = none →
      m.feedback.isSome = true →
      infer_modulation_kind m = "Phaser") ∧
    (∀ m : ModulationState, truthy_str m.kind = false →
      m.spread = none → m.manual = none → m.freq = none →
      m.feedback = none →
      infer_modulation_kind m = "Chorus") ∧
    (∀ c : CompressorState, truthy_str c.kind = false →
      (c.threshold.isSome || c.attack.isSome || c.release.isSome ||
        c.ratioName.isSome || c.knee.isSome) = true →
      infer_compressor_kind c = "Rack") ∧
    (∀ c : CompressorState, truthy_str c.kind = false →
      c.threshold = none → c.attack = none → c.release = none →
      c.ratioName = none → c.knee = none →
      infer_compressor_kind c = "Stomp") ∧
    (∀ r : ReverbState, truthy_str r.kind = false →
      (r.reverb.isSome || r.filter.isSome) = true →
      infer_reverb_kind r = "Spring") ∧
    (∀ r : ReverbState, truthy_str r.kind = false →
      r.reverb = none → r.filter = none →
      infer_reverb_kind r = "Hall") := by
  refine ⟨?_, ?_, ?_, ?_, ?_, ?_, ?_, ?_, ?_, ?_, ?_⟩
  · intro c k hk hne; simp [infer_compressor_kind, hk, hne]
  · intro m k hk hne; simp [infer_modulation_kind, hk, hne]
  · intro r k hk hne; simp [infer_reverb_kind, hk, hne]
  · intro m ht hs
    rw [infer_modulation_kind_of_kind_unset m ht]
    simp [modulation_kind_fallback, hs]
  · intro m ht h1 h2 h3
    rw [infer_modulation_kind_of_kind_unset m ht]
    simp [modulation_kind_fallback, h1, h2, h3]
  · intro m ht h1 h2 h3 h4
    rw [infer_modulation_kind_of_kind_unset m ht]
    simp [modulation_kind_fallback, h1, h2, h3, h4]
  · intro m ht h1 h2 h3 h4
    rw [infer_modulation_kind_of_kind_unset m ht]
    cases hm : m.mix <;>
      simp [modulation_kind_fallback, h1, h2, h3, h4, hm]
  · intro c ht hs
    rw [infer_compressor_kind_of_kind_unset c ht]
    simp [compressor_kind_fallback, hs]
  · intro c ht h1 h2 h3 h4 h5
    rw [infer_compressor_kind_of_kind_unset c ht]
    cases hs : c.sustain <;> cases ho : c.output <;>
      simp [compressor_kind_fallback, h1, h2, h3, h4, h5, hs, ho]
  · intro r ht hs
    rw [infer_reverb_kind_of_kind_unset r ht]
    simp [reverb_kind_fallback, hs]
  · intro r ht h1 h2
    rw [infer_reverb_kind_of_kind_unset r ht]
    simp [reverb_kind_fallback, h1, h2]

/-- Witness for C2: a modulation state with only spread set and no kind
infers Flanger. -/
theorem kind_inference_order_witness :
    truthy_str ({spread := some 1} : ModulationState).kind = false ∧
    (({spread := some 1} : ModulationState).spread.isSome ||
      ({spread := some 1} : ModulationState).manual.isSome) = true ∧
    infer_modulation_kind {spread := some 1} = "Flanger" :=
  ⟨rfl, rfl, kind_inference_order.2.2.2.1 {spread := some 1} rfl rfl⟩

/-- Claim C3: `_limit_value` clamps a present value to the `[min, max]`
pair and sends an absent value to the minimum (so encoding never fails),
and the encoder writes exactly that clamped value at each numeric
parameter's offset (shown for the amp controls 129-133, delay
feedback/level 179/184 and gate threshold/release 209/210). -/
theorem numeric_clamping_encode :
    (∀ (lo hi v : Int), lo ≤ hi →
      limit_value (some v) ⟨lo, hi⟩ = max lo (min v hi) ∧
      limit_value none ⟨lo, hi⟩ = lo) ∧
    (∀ (C : Constants) (st : THR10State),
      state_to_data C st 129 = limit_value st.amp.gain C.controlGain ∧
      state_to_data C st 130 = limit_value st.amp.master C.controlMaster ∧
      state_to_data C st 131 = limit_value st.amp.bass C.controlBass ∧
      state_to_data C st 132 = limit_value st.amp.middle C.controlMiddle ∧
      state_to_data C st 133 = limit_value st.amp.treble C.controlTreble ∧
      state_to_data C st 179 = limit_value st.delay.feedback C.delayFeedback ∧
      state_to_data C st 184 = limit_value st.delay.level C.delayLevel ∧
      state_to_data C st 209 = limit_value st.gate.threshold C.gateThreshold ∧
      state_to_data C st 210 = limit_value st.gate.release C.gateRelease) := by
  constructor
  · intro lo hi v h
    constructor <;> · simp only [limit_value, get_minmax]; split_ifs <;> omega
  · intro C st
    refine ⟨?_, ?_, ?_, ?_, ?_, ?_, ?_, ?_, ?_⟩ <;>
      simp [state_to_data, apply_gate, apply_reverb, apply_delay,
        apply_modulation, apply_compressor, apply_cab, apply_amp,
        apply_name_out, set_midi_int, Block.set, ite_apply]

/-- Witness for C3: with range [0, 100], the value 150 clamps to 100 and
an absent value encodes as the minimum 0. -/
theorem numeric_clamping_encode_witness :
    (0 : Int) ≤ 100 ∧
    limit_value (some 150) ⟨0, 100⟩ = max 0 (min 150 100) ∧
    limit_value none ⟨0, 100⟩ = 0 :=
  ⟨by decide, (numeric_clamping_encode.1 0 100 150 (by decide)).1,
    (numeric_clamping_encode.1 0 100 150 (by decide)).2⟩

/-- Claim C4: conflict detection records a conflict at exactly the paths
present in both diff(L, S) and diff(L, D), each entry holding L's value as
live, S's value as staged and D's value as device (independent of whether
S and D agree); concretely L={amp.gain:5}, S={amp.gain:7}, D={amp.gain:9}
yields exactly one conflict at "amp.gain" with {live:5, staged:7,
device:9}. -/
theorem conflict_detection_three_way :
    (∀ (L S D : THR10State) (p : String),
      (detect_conflicts L S D).lookup p =
        match (diff_state L S).lookup p, (diff_state L D).lookup p with
        | some sd, some dd => some ⟨sd.live, sd.staged, dd.staged⟩
        | _, _ => none) ∧
    detect_conflicts {amp := {gain := some 5}} {amp := {gain := some 7}}
        {amp := {gain := some 9}} =
      [("amp.gain",
        ⟨some (Value.int 5), some (Value.int 7), some (Value.int 9)⟩)] := by
  constructor
  · intro L S D p
    have hfun : ∀ (LD : List (String × DiffEntry)),
        (fun pe : String × DiffEntry =>
          match LD.lookup pe.1 with
          | none => none
          | some dd =>
            some (pe.1,
              (⟨pe.2.live, pe.2.staged, dd.staged⟩ : ConflictEntry))) =
        fun pe =>
          ((fun q ent => (LD.lookup q).map
              (fun dd =>
                (⟨ent.live, ent.staged, dd.staged⟩ : ConflictEntry)))
            pe.1 pe.2).map (fun c => (pe.1, c)) := by
      intro LD; funext pe; cases hq : LD.lookup pe.1 <;> simp [hq]
    simp only [detect_conflicts]
    by_cases h1 : diff_state L S = []
    · simp [h1, List.lookup]
    · by_cases h2 : diff_state L D = []
      · rw [if_pos (Or.inr h2)]
        cases hs : (diff_state L S).lookup p <;> simp [h2, List.lookup]
      · rw [if_neg (by simp [h1, h2]), hfun,
          lookup_filterMap_keyed
            (fun q ent => (List.lookup q (diff_state L D)).map
              (fun dd =>
                (⟨ent.live, ent.staged, dd.staged⟩ : ConflictEntry)))
            p (diff_state L S) (diff_state_keys_nodup L S)]
        cases hs : (diff_state L S).lookup p <;>
          cases hd : (diff_state L D).lookup p <;> simp
  · decide

/-- Counterexample for C5 as stated: with L={amp.gain:5} and
S={amp.gain:7}, diff(L, merge(L, S)) does contain an entry at "amp.gain",
a path where S has a non-None value — the law fails in this argument
order. -/
theorem diff_after_merge_counterexample :
    ({amp := {gain := some 7}} : THR10State).amp.gain = some 7 ∧
    ("amp.gain", (⟨some (Value.int 5), some (Value.int 7)⟩ : DiffEntry)) ∈
      diff_state {amp := {gain := some 5}}
        (merge_state {amp := {gain := some 5}} {amp := {gain := some 7}}) := by
  decide

/-- Claim C5 (amended): merge always adopts staged — the diff of
merge(L, S) against S contains no entries (in particular none at any path
where S had a non-None value). -/
theorem merge_adopts_staged (L S : THR10State) :
    diff_state (merge_state L S) S = [] := by
  simp [diff_state, merge_state, diff_amp, merge_amp, diff_cab, merge_cab,
    diff_compressor, merge_compressor, diff_modulation, merge_modulation,
    diff_delay, merge_delay, diff_reverb, merge_reverb, diff_gate,
    merge_gate, diff_leaf_merge_leaf]

/-- Claim C6 (code behavior at the failing input): with `timeout_s=None`
the polling loop of `refresh_from_device` gives up after one empty
`extract_dump` — a dump that becomes available on the second poll is never
seen, contradicting the spec's "poll indefinitely"; only a first-poll dump
is returned. -/
theorem refresh_poll_none_timeout :
    refresh_poll (α := Nat) none 0 [(none, 0), (some 42, 1)] = none ∧
    refresh_poll (α := Nat) none 0 [(some 42, 0)] = some 42 :=
  ⟨rfl, rfl⟩

/-- Staged state holding only amp.gain=7 (result of the scenario edit). -/
def scenario_staged : THR10State := {amp := {gain := some 7}}

/-- Controller state after `set_param` at t=0 in the debounce scenario. -/
def scenario_c1 : Controller :=
  { Controller.fresh with
    staged_state := scenario_staged
    pending_apply := true
    last_edit_time := some 0 }

/-- Claim C7: `flush_debounced` returns false and writes nothing when
nothing is pending; with force it applies immediately; otherwise it
applies exactly when the elapsed time since the last edit reaches the
debounce window.  With the default 0.3 s window, `set_param` at t=0 then
`flush_debounced()` at t=0.1 performs no write, and at t=0.35 performs
exactly one write and clears `pending_apply`. -/
theorem debounce_flush_behavior :
    (∀ (c : Controller) (now : ℚ) (b : Bool), c.pending_apply = false →
      flush_debounced c now b = (false, c, [])) ∧
    (∀ (c : Controller) (now : ℚ), c.pending_apply = true →
      flush_debounced c now true = apply_staged c) ∧
    (∀ (c : Controller) (now t : ℚ), c.pending_apply = true →
      c.last_edit_time = some t → now - t < c.debounce_seconds →
      flush_debounced c now false = (false, c, [])) ∧
    (∀ (c : Controller) (now t : ℚ), c.pending_apply = true →
      c.last_edit_time = some t → c.debounce_seconds ≤ now - t →
      flush_debounced c now false = apply_staged c) ∧
    (set_param Controller.fresh 0 "amp.gain" (Value.int 7) =
        .ok scenario_c1 ∧
      flush_debounced scenario_c1 (1 / 10) false = (false, scenario_c1, []) ∧
      (flush_debounced scenario_c1 (7 / 20) false).1 = true ∧
      (flush_debounced scenario_c1 (7 / 20) false).2.2.length = 1 ∧
      (flush_debounced scenario_c1 (7 / 20) false).2.1.pending_apply =
        false) := by
  have hwait : ∀ (c : Controller) (now t : ℚ), c.pending_apply = true →
      c.last_edit_time = some t → now - t < c.debounce_seconds →
      flush_debounced c now false = (false, c, []) := by
    intro c now t h1 h2 h3; simp [flush_debounced, h1, h2, h3]
  have hfire : ∀ (c : Controller) (now t : ℚ), c.pending_apply = true →
      c.last_edit_time = some t → c.debounce_seconds ≤ now - t →
      flush_debounced c now false = apply_staged c := by
    intro c now t h1 h2 h3
    simp [flush_debounced, h1, h2, not_lt.mpr h3]
  have h035 : flush_debounced scenario_c1 (7 / 20) false =
      apply_staged scenario_c1 :=
    hfire scenario_c1 (7 / 20) 0 rfl rfl
      (by norm_num [scenario_c1, Controller.fresh])
  refine ⟨?_, ?_, hwait, hfire, rfl, ?_, ?_, ?_, ?_⟩
  · intro c now b h; simp [flush_debounced, h]
  · intro c now h; simp [flush_debounced, h]
  · exact hwait scenario_c1 (1 / 10) 0 rfl rfl
      (by norm_num [scenario_c1, Controller.fresh])
  · rw [h035]; rfl
  · rw [h035]; rfl
  · rw [h035]; rfl

/-- Witness for C7: a fresh controller has nothing pending, so flushing
performs no write. -/
theorem debounce_flush_behavior_witness :
    Controller.fresh.pending_apply = false ∧
    flush_debounced Controller.fresh 0 false = (false, Controller.fresh, []) :=
  ⟨rfl, debounce_flush_behavior.1 Controller.fresh 0 false rfl⟩

/-- Claim C8: `set_param` normalizes path segments (trim, lower-case,
spaces/hyphens to underscores), accepts `.` or `/` separators, on success
assigns into staged while recording the edit time and marking
pending_apply, and fails with "unknown group" on a dead non-final segment
and "unknown parameter" on a dead final segment; a failing call produces
only the error (in the source the exception is raised before any of the
three mutations, and `setattr` is the walk's last statement). -/
theorem set_param_path_resolution :
    (∀ (c : Controller) (now : ℚ) (path : String) (v : Value)
        (st : THR10State),
      set_state_value c.staged_state path v = .ok st →
      set_param c now path v =
        .ok { c with staged_state := st, pending_apply := true,
                     last_edit_time := some now }) ∧
    (∀ (c : Controller) (now : ℚ) (path : String) (v : Value) (e : PathErr),
      set_state_value c.staged_state path v = .error e →
      set_param c now path v = .error e) ∧
    (∀ (st : THR10State) (v : Value),
      set_state_value st "Delay/High-Cut" v =
        set_state_value st "delay.high_cut" v ∧
      set_state_value st " AMP . Gain " v =
        set_state_value st "amp.gain" v) ∧
    (∀ (c : Controller) (now : ℚ) (n : Int),
      set_param c now "amp.gain" (Value.int n) =
        .ok { c with
              staged_state :=
                { c.staged_state with
                  amp := { c.staged_state.amp with gain := some n } }
              pending_apply := true
              last_edit_time := some now }) ∧
    (∀ (st : THR10State) (v : Value) (g : String),
      split_path (g ++ ".gain") = [g, "gain"] →
      normalize_field g ∉
        ["name", "edited", "stored", "amp", "cab", "compressor",
          "modulation", "delay", "reverb", "gate"] →
      set_state_value st (g ++ ".gain") v = .error (.unknown_group g)) ∧
    (∀ (st : THR10State) (v : Value) (p : String),
      split_path ("amp." ++ p) = ["amp", p] →
      normalize_field p ∉
        ["model", "gain", "master", "bass", "middle", "treble"] →
      set_state_value st ("amp." ++ p) v =
        .error (.unknown_parameter p)) := by
  have hamp : normalize_field "amp" = "amp" := by decide
  refine ⟨?_, ?_, ?_, ?_, ?_, ?_⟩
  · intro c now path v st h; simp [set_param, h]
  · intro c now path v e h; simp [set_param, h]
  · intro st v
    have e1 : split_path "Delay/High-Cut" = ["Delay", "High-Cut"] := by
      decide
    have e2 : split_path "delay.high_cut" = ["delay", "high_cut"] := by
      decide
    have e3 : normalize_field "Delay" = "delay" := by decide
    have e4 : normalize_field "delay" = "delay" := by decide
    have e5 : normalize_field "High-Cut" = "high_cut" := by decide
    have e6 : normalize_field "high_cut" = "high_cut" := by decide
    have e7 : split_path " AMP . Gain " = [" AMP ", " Gain "] := by decide
    have e8 : split_path "amp.gain" = ["amp", "gain"] := by decide
    have e9 : normalize_field " AMP " = "amp" := by decide
    have e10 : normalize_field " Gain " = "gain" := by decide
    have e11 : normalize_field "gain" = "gain" := by decide
    constructor
    · simp [set_state_value, e1, e2, set_state_walk, step, e3, e4,
        assign_value, assign_delay, e5, e6]
    · simp [set_state_value, e7, e8, set_state_walk, step, e9, hamp,
        assign_value, assign_amp, e10, e11]
  · intro c now n; rfl
  · intro st v g hsplit hmem
    simp only [List.mem_cons, List.not_mem_nil, or_false, not_or] at hmem
    obtain ⟨h1, h2, h3, h4, h5, h6, h7, h8, h9, h10⟩ := hmem
    simp [set_state_value, hsplit, set_state_walk, step, h1, h2, h3, h4, h5,
      h6, h7, h8, h9, h10]
  · intro st v p hsplit hmem
    simp only [List.mem_cons, List.not_mem_nil, or_false, not_or] at hmem
    obtain ⟨h1, h2, h3, h4, h5, h6⟩ := hmem
    simp [set_state_value, hsplit, set_state_walk, step, hamp, assign_value,
      assign_amp, Except.map, h1, h2, h3, h4, h5, h6]

/-- Witness for C8: setting "amp.gain" to 7 on a fresh controller stages
the edit, records the edit time and marks pending_apply. -/
theorem set_param_path_resolution_witness :
    set_state_value Controller.fresh.staged_state "amp.gain"
        (Value.int 7) = .ok scenario_staged ∧
    set_param Controller.fresh 0 "amp.gain" (Value.int 7) =
      .ok { Controller.fresh with
            staged_state := scenario_staged
            pending_apply := true
            last_edit_time := some 0 } :=
  ⟨rfl, set_param_path_resolution.1 Controller.fresh 0 "amp.gain"
    (Value.int 7) scenario_staged rfl⟩

/-- Controller with a stale conflict entry and an empty diff. -/
def conflicted_controller : Controller :=
  { Controller.fresh with
    conflicts := [("amp.gain",
      ⟨some (Value.int 5), some (Value.int 7), some (Value.int 7)⟩)]
    pending_apply := true }

/-- Counterexample for C9 as stated: when the diff is empty, `apply_staged`
returns early after clearing only `pending_apply`, so a previously
recorded conflicts map survives the call — the conflicts map is not empty
after every `apply_staged`. -/
theorem apply_staged_keeps_conflicts_counterexample :
    diff_state conflicted_controller.live_state
      conflicted_controller.staged_state = [] ∧
    (apply_staged conflicted_controller).2.1.conflicts =
      conflicted_controller.conflicts ∧
    conflicted_controller.conflicts ≠ [] :=
  ⟨rfl, rfl, by decide⟩

/-- Claim C9 (amended): an `apply_staged` with a non-empty diff clears
conflicts and pending_apply and resets staged; an empty-diff
`apply_staged` clears only pending_apply, leaving conflicts (and
everything else) unchanged and writing nothing; `discard_staged` resets
staged, clears conflicts and pending_apply, and performs no device
I/O. -/
theorem apply_discard_postconditions :
    (∀ c : Controller, diff_state c.live_state c.staged_state ≠ [] →
      (apply_staged c).1 = true ∧ (apply_staged c).2.1.conflicts = [] ∧
      (apply_staged c).2.1.pending_apply = false ∧
      (apply_staged c).2.1.staged_state = THR10State.empty) ∧
    (∀ c : Controller, diff_state c.live_state c.staged_state = [] →
      apply_staged c = (false, {c with pending_apply := false}, [])) ∧
    (∀ c : Controller, discard_staged c =
      {c with staged_state := THR10State.empty, pending_apply := false,
              conflicts := []}) := by
  refine ⟨?_, ?_, fun c => rfl⟩
  · intro c h; simp [apply_staged, h]
  · intro c h; simp [apply_staged, h]

/-- Witness for C9 (amended): a fresh controller has an empty diff, so
`apply_staged` only clears pending_apply and writes nothing. -/
theorem apply_discard_postconditions_witness :
    diff_state Controller.fresh.live_state Controller.fresh.staged_state =
      [] ∧
    apply_staged Controller.fresh =
      (false, {Controller.fresh with pending_apply := false}, []) :=
  ⟨rfl, apply_discard_postconditions.2.1 Controller.fresh rfl⟩

/-- Compressor state that encodes as the Rack variant. -/
def rack_compressor_state : THR10State :=
  { compressor :=
    { kind := some "Rack"
      threshold := some 300
      attack := some 17 } }

/-- Claim C10: whenever the compressor encodes as a non-Stomp ("Rack",
non-zero type index) variant, the encoder writes the 14-bit threshold pair
at 146-147 and then the clamped attack at 147, so the final block holds
the clamped attack at 147 (the threshold's low 7 bits are overwritten and
never appear) and the threshold's high byte at 146. -/
theorem rack_attack_overwrites_threshold_low (C : Constants)
    (st : THR10State)
    (h : option_index (some (infer_compressor_kind st.compressor))
      compressor_names 0 ≠ 0) :
    state_to_data C st 147 = limit_value st.compressor.attack C.rackAttack ∧
    state_to_data C st 146 =
      (encode_midi_int
        (limit_value st.compressor.threshold C.rackThreshold)).1 := by
  constructor <;>
    simp [state_to_data, apply_gate, apply_reverb, apply_delay,
      apply_modulation, apply_compressor, apply_cab, apply_amp,
      apply_name_out, set_midi_int, Block.set, ite_apply, h]

/-- Witness for C10: an explicit Rack compressor with threshold 300 and
attack 17 writes 17 (not the threshold's low byte 44) at offset 147. -/
theorem rack_attack_overwrites_threshold_low_witness :
    option_index
      (some (infer_compressor_kind rack_compressor_state.compressor))
      compressor_names 0 ≠ 0 ∧
    state_to_data sample_constants rack_compressor_state 147 =
      limit_value rack_compressor_state.compressor.attack
        sample_constants.rackAttack :=
  ⟨by decide, (rack_attack_overwrites_threshold_low sample_constants
    rack_compressor_state (by decide)).1⟩
